import Mathlib

/-!
Shallow embedding of the `zksync-telemetry` Rust library
(`src/config.rs`, `src/utils.rs`, `src/keys.rs`, `src/telemetry.rs`,
`src/error.rs`).

Stateful code is embedded by explicit passing of a `World` value that
models the parts of the process environment the library touches: the
file system (directories and files), terminal attachment of stdin and
stdout, environment variables, the stream of stdin lines, the UUID
generator, the clock, and the stdout log.  Fallible operations return
`Except TelemetryError`.  `serde_json` (de)serialization of the config
struct is modelled by a `FileContent` type that stores either a
well-formed record (serialization round-trips the struct) or malformed
bytes that fail to parse.
-/

/-- JSON values (`serde_json::Value`), restricted to the constructors that
event properties in this library can carry. -/
inductive JsonVal where
  | str : String → JsonVal
  | num : Int → JsonVal
  | jbool : Bool → JsonVal
  | null : JsonVal
deriving DecidableEq

/-- The error enum of `src/error.rs`.  Payloads of foreign error types
(`std::io::Error`, `serde_json::Error`) are modelled as their message
strings. -/
inductive TelemetryError where
  | InitializationError : String → TelemetryError
  | ConfigError : String → TelemetryError
  | SendError : String → TelemetryError
  | IoError : String → TelemetryError
  | SerializationError : String → TelemetryError
  | PostHogError : String → TelemetryError
  | SentryError : String → TelemetryError
  | InvalidPath : String → TelemetryError
  | EnvironmentError : String → TelemetryError
  | PermissionError : String → TelemetryError
deriving DecidableEq

/-- `TelemetryResult<T>` from `src/error.rs`. -/
abbrev TelemetryResult (α : Type) := Except TelemetryError α

instance {ε α : Type} [DecidableEq ε] [DecidableEq α] :
    DecidableEq (Except ε α) := fun x y =>
  match x, y with
  | Except.error e, Except.error f =>
      if h : e = f then Decidable.isTrue (by rw [h])
      else Decidable.isFalse (fun hc => h (by cases hc; rfl))
  | Except.ok a, Except.ok b =>
      if h : a = b then Decidable.isTrue (by rw [h])
      else Decidable.isFalse (fun hc => h (by cases hc; rfl))
  | Except.error _, Except.ok _ => Decidable.isFalse (fun hc => Except.noConfusion hc)
  | Except.ok _, Except.error _ => Decidable.isFalse (fun hc => Except.noConfusion hc)

/-- File system paths, as lists of components (`PathBuf`). -/
abbrev FsPath := List String

/-- `PathBuf::parent`: `none` for the empty path, otherwise the path with
its last component removed. -/
def FsPath.parentDir (p : FsPath) : Option FsPath :=
  match p with
  | [] => none
  | _ :: _ => some p.dropLast

/-- The `TelemetryConfig` struct of `src/config.rs`.  `created_at`
(`chrono::DateTime<Utc>`) is modelled as a natural-number timestamp. -/
structure TelemetryConfig where
  enabled : Bool
  instance_id : String
  created_at : Nat
  config_path : Option FsPath
deriving DecidableEq

/-- Contents of a file on disk: either the `serde_json` serialization of a
`TelemetryConfig` (which deserializes back to the same struct) or bytes on
which `serde_json::from_reader` fails. -/
inductive FileContent where
  | record : TelemetryConfig → FileContent
  | malformed : String → FileContent
deriving DecidableEq

/-- The process environment the library interacts with. -/
structure World where
  /-- Directories that exist on disk. -/
  dirs : List FsPath
  /-- Files that exist on disk, keyed by path. -/
  files : List (FsPath × FileContent)
  /-- Whether stdin is attached to a terminal. -/
  stdin_tty : Bool
  /-- Whether stdout is attached to a terminal. -/
  stdout_tty : Bool
  /-- Environment variables (`std::env::var` succeeds iff the name is present). -/
  env : List (String × String)
  /-- Successive results of `stdin().read_line`: `some line` for a
  successful read, `none` for a read error. -/
  stdin_lines : List (Option String)
  /-- The stream of UUIDs produced by `uuid::Uuid::new_v4`. -/
  uuid_gen : Nat → String
  /-- How many UUIDs have been drawn so far. -/
  uuid_ctr : Nat
  /-- The current time (`chrono::Utc::now`). -/
  now : Nat
  /-- Lines printed to stdout. -/
  stdout_log : List String

/-- `std::env::var`, modelled as association-list lookup. -/
def World.envVar (w : World) (k : String) : Option String :=
  w.env.lookup k

/-- The file stored at `p`, if any (`Path::exists` is `isSome` of this). -/
def World.fileAt (w : World) (p : FsPath) : Option FileContent :=
  w.files.lookup p

/-- Whether directory `p` exists; the empty path (filesystem root /
current directory) always exists. -/
def World.dirExists (w : World) (p : FsPath) : Bool :=
  p.isEmpty || w.dirs.contains p

/-- Store content `c` at path `p`, replacing any previous file. -/
def World.setFile (w : World) (p : FsPath) (c : FileContent) : World :=
  { w with files := (p, c) :: w.files.filter (fun q => q.1 != p) }

/-- All nonempty ancestor paths of `p`, `p` included. -/
def ancestorsOf (p : FsPath) : List FsPath :=
  (List.range p.length).map (fun n => p.take (n + 1))

/-- `std::fs::create_dir_all`: creates `p` and every ancestor directory.
Modelled as always succeeding. -/
def World.createDirAll (w : World) (p : FsPath) : World :=
  { w with dirs := ancestorsOf p ++ w.dirs }

/-- `std::fs::File::create` followed by writing content `c`: succeeds iff
the containing directory exists (the empty parent, i.e. root, always
exists). -/
def World.fileCreate (w : World) (p : FsPath) (c : FileContent) : Bool × World :=
  if w.dirExists p.dropLast then (true, w.setFile p c) else (false, w)

/-- `stdin().read_line`: consumes the next entry of the stdin stream; an
exhausted stream behaves as a read error. -/
def World.readLine (w : World) : Option String × World :=
  match w.stdin_lines with
  | [] => (none, w)
  | l :: rest => (l, { w with stdin_lines := rest })

/-- `is_ci_environment` from `src/utils.rs`: any of six well-known CI
environment variables is present. -/
def is_ci_environment (w : World) : Bool :=
  (w.envVar "CI").isSome ||
  (w.envVar "CONTINUOUS_INTEGRATION").isSome ||
  (w.envVar "BUILD_NUMBER").isSome ||
  (w.envVar "GITHUB_ACTIONS").isSome ||
  (w.envVar "TEAMCITY_VERSION").isSome ||
  (w.envVar "TRAVIS").isSome

/-- `is_interactive` from `src/utils.rs`, for the shipped (non-test) build
where `cfg!(test)` is false: both stdin and stdout are terminals and no CI
variable is set. -/
def is_interactive (w : World) : Bool :=
  w.stdin_tty && w.stdout_tty && !is_ci_environment w

/-- ASCII whitespace as recognized by `str::trim` on the inputs this
library handles. -/
def isWsChar (c : Char) : Bool :=
  c == ' ' || c == '\t' || c == '\n' || c == '\r'

/-- `str::trim`: drop whitespace from both ends. -/
def trimChars (l : List Char) : List Char :=
  ((l.dropWhile isWsChar).reverse.dropWhile isWsChar).reverse

/-- `s.trim().is_empty()`: every character is whitespace. -/
def wsOnly (s : String) : Bool :=
  s.data.all isWsChar

/-- `str::starts_with` on character lists (pattern second). -/
def leadsWith : List Char → List Char → Bool
  | _, [] => true
  | [], _ :: _ => false
  | c :: cs, d :: ds => c == d && leadsWith cs ds

/-- `str::contains` for a substring pattern. -/
def containsSub : List Char → List Char → Bool
  | [], pat => pat.isEmpty
  | c :: t, pat => leadsWith (c :: t) pat || containsSub t pat

/-- `str::starts_with` on strings. -/
def strStarts (s pat : String) : Bool :=
  leadsWith s.data pat.data

/-- `str::contains` on strings. -/
def strContains (s pat : String) : Bool :=
  containsSub s.data pat.data

/-- `prompt_yes_no` from `src/utils.rs`: print the prompt, read one line;
on a successful read the answer is affirmative iff
`input.trim().to_lowercase()` starts with the character `y`; a failed
read is negative. -/
def prompt_yes_no (w : World) (p : String) : Bool × World :=
  let w1 := { w with stdout_log := w.stdout_log ++ [p ++ " (y/n)"] }
  match w1.readLine with
  | (some input, w2) =>
      (match (trimChars input.data).map Char.toLower with
       | c :: _ => c == 'y'
       | [] => false, w2)
  | (none, w2) => (false, w2)

/-- `TelemetryConfig::get_config_path`: the custom path verbatim when
supplied, else the per-OS project config directory (from
`directories::ProjectDirs::from("com", "matter-labs", app_name)`,
modelled as a deterministic function of the app name) joined with
`telemetry.json`. -/
def get_config_path (app_name : String) (custom_path : Option FsPath) : FsPath :=
  match custom_path with
  | some p => p
  | none => ["os-config-dir", "com", "matter-labs", app_name, "telemetry.json"]

/-- The fixed disclosure printed before the consent prompt in
`TelemetryConfig::new`. -/
def disclosureLines : List String :=
  ["Help us improve ZKsync by sending anonymous usage data.",
   "We collect:",
   "  - Basic usage statistics",
   "  - Error reports",
   "  - Platform information",
   "",
   "We DO NOT collect:",
   "  - Personal information",
   "  - Sensitive configuration",
   "  - Private keys or addresses"]

/-- `TelemetryConfig::new` from `src/config.rs`.  Resolves the path; if a
file exists there, parses it (malformed content is a `ConfigError`); else
in non-interactive mode returns a fresh disabled record (the source
returns it without saving); else prints the disclosure, prompts, builds
the record, creates the parent directory, and writes the record to
disk. -/
def TelemetryConfig.new (app_name : String) (custom_path : Option FsPath)
    (w : World) : TelemetryResult TelemetryConfig × World :=
  let config_path := get_config_path app_name custom_path
  match w.fileAt config_path with
  | some (FileContent.record c) => (Except.ok c, w)
  | some (FileContent.malformed _) =>
      (Except.error (TelemetryError.ConfigError "Failed to parse config"), w)
  | none =>
    if !is_interactive w then
      (Except.ok
        { enabled := false
          instance_id := w.uuid_gen w.uuid_ctr
          created_at := w.now
          config_path := some config_path },
       { w with uuid_ctr := w.uuid_ctr + 1 })
    else
      let w1 := { w with stdout_log := w.stdout_log ++ disclosureLines }
      let (enabled, w2) := prompt_yes_no w1 "Would you like to enable telemetry?"
      let config : TelemetryConfig :=
        { enabled := enabled
          instance_id := w2.uuid_gen w2.uuid_ctr
          created_at := w2.now
          config_path := some config_path }
      let w3 := { w2 with uuid_ctr := w2.uuid_ctr + 1 }
      let w4 :=
        match config_path.parentDir with
        | some par => w3.createDirAll par
        | none => w3
      match w4.fileCreate config_path (FileContent.record config) with
      | (true, w5) => (Except.ok config, w5)
      | (false, w5) =>
          (Except.error (TelemetryError.ConfigError "Failed to create config file"), w5)

/-- `TelemetryConfig::update_consent` from `src/config.rs`: set `enabled`,
then, only if a `config_path` is stored, write the whole record there
(`File::create` + `serde_json::to_writer_pretty`); a failed write is a
`ConfigError`.  No directory is created here. -/
def TelemetryConfig.update_consent (c : TelemetryConfig) (enabled : Bool)
    (w : World) : TelemetryResult Unit × TelemetryConfig × World :=
  let c1 := { c with enabled := enabled }
  match c1.config_path with
  | some path =>
      match w.fileCreate path (FileContent.record c1) with
      | (true, w1) => (Except.ok (), c1, w1)
      | (false, w1) =>
          (Except.error (TelemetryError.ConfigError "Failed to update telemetry consent"),
           c1, w1)
  | none => (Except.ok (), c1, w)

/-- The `TelemetryKeys` struct of `src/keys.rs`. -/
structure TelemetryKeys where
  posthog_key : Option String
  sentry_dsn : Option String
deriving DecidableEq

/-- `TelemetryKeys::get_posthog_key`: read `ANVIL_POSTHOG_KEY`; a present,
non-whitespace value must start with `phc_` or a `ConfigError` is raised;
an absent or whitespace-only value is `none`. -/
def get_posthog_key (w : World) : TelemetryResult (Option String) :=
  match w.envVar "ANVIL_POSTHOG_KEY" with
  | some key =>
      if !wsOnly key then
        if !strStarts key "phc_" then
          Except.error (TelemetryError.ConfigError "Invalid PostHog key format")
        else
          Except.ok (some key)
      else
        Except.ok none
  | none => Except.ok none

/-- `TelemetryKeys::get_sentry_dsn`: read `ANVIL_SENTRY_DSN`; a present,
non-whitespace value must start with `http` and contain `@sentry.io` or a
`ConfigError` is raised; an absent or whitespace-only value is `none`. -/
def get_sentry_dsn (w : World) : TelemetryResult (Option String) :=
  match w.envVar "ANVIL_SENTRY_DSN" with
  | some dsn =>
      if !wsOnly dsn then
        if !strStarts dsn "http" || !strContains dsn "@sentry.io" then
          Except.error (TelemetryError.ConfigError "Invalid Sentry DSN format")
        else
          Except.ok (some dsn)
      else
        Except.ok none
  | none => Except.ok none

/-- `TelemetryKeys::new`: both environment readers in sequence. -/
def TelemetryKeys.new (w : World) : TelemetryResult TelemetryKeys :=
  match get_posthog_key w with
  | Except.error e => Except.error e
  | Except.ok p =>
      match get_sentry_dsn w with
      | Except.error e => Except.error e
      | Except.ok s => Except.ok ⟨p, s⟩

/-- `TelemetryKeys::with_keys`: validate a supplied PostHog key (must
start with `phc_`) and a supplied Sentry DSN (must start with `http` and
contain `@sentry.io`); `none` values are passed through unvalidated. -/
def TelemetryKeys.with_keys (pk sd : Option String) : TelemetryResult TelemetryKeys :=
  match pk with
  | some key =>
      if !strStarts key "phc_" then
        Except.error (TelemetryError.ConfigError "Invalid PostHog key format")
      else
        match sd with
        | some dsn =>
            if !strStarts dsn "http" || !strContains dsn "@sentry.io" then
              Except.error (TelemetryError.ConfigError "Invalid Sentry DSN format")
            else
              Except.ok ⟨pk, sd⟩
        | none => Except.ok ⟨pk, sd⟩
  | none =>
      match sd with
      | some dsn =>
          if !strStarts dsn "http" || !strContains dsn "@sentry.io" then
            Except.error (TelemetryError.ConfigError "Invalid Sentry DSN format")
          else
            Except.ok ⟨pk, sd⟩
      | none => Except.ok ⟨pk, sd⟩

/-- `std::env::consts::OS` on the reference platform. -/
def osConst : String := "linux"

/-- `env!("CARGO_PKG_VERSION")` of the crate. -/
def cargoPkgVersion : String := "0.1.0"

/-- A PostHog event (`posthog_rs::Event`): name, distinct id, and a
property map (each key held at most once). -/
structure PosthogEvent where
  name : String
  distinct_id : String
  props : List (String × JsonVal)
deriving DecidableEq

/-- `Event::insert_prop`: map insertion, overwriting any previous value at
the key.  (Serialization of the property value is modelled as always
succeeding.) -/
def insertProp (ps : List (String × JsonVal)) (k : String) (v : JsonVal) :
    List (String × JsonVal) :=
  ps.filter (fun q => q.1 != k) ++ [(k, v)]

/-- The `Telemetry` facade of `src/telemetry.rs`.  The constructed PostHog
client is modelled by the key it was built from, the Sentry guard by its
DSN. -/
structure Telemetry where
  config : TelemetryConfig
  posthog : Option String
  sentry_guard : Option String

/-- `Telemetry::new`: load or create the config; when it is enabled,
construct the PostHog client from the key (if any) and initialize Sentry
from the DSN (if any); when it is disabled, construct neither client. -/
def Telemetry.new (app_name : String) (posthog_key sentry_dsn : Option String)
    (custom_config_path : Option FsPath) (w : World) :
    TelemetryResult Telemetry × World :=
  match TelemetryConfig.new app_name custom_config_path w with
  | (Except.error e, w1) => (Except.error e, w1)
  | (Except.ok config, w1) =>
      if config.enabled then
        (Except.ok ⟨config, posthog_key, sentry_dsn⟩, w1)
      else
        (Except.ok ⟨config, none, none⟩, w1)

/-- `Telemetry::track_event`: a no-op returning success when telemetry is
disabled or no PostHog client exists; otherwise builds an event keyed by
`instance_id`, inserts all caller properties, then inserts the fixed
`platform` and `version` properties, and forwards the event (the `sent`
list models the events handed to the client). -/
def Telemetry.track_event (t : Telemetry) (event_name : String)
    (properties : List (String × JsonVal)) (sent : List PosthogEvent) :
    TelemetryResult Unit × List PosthogEvent :=
  if !t.config.enabled then
    (Except.ok (), sent)
  else
    match t.posthog with
    | some _ =>
        let ev0 : PosthogEvent := ⟨event_name, t.config.instance_id, []⟩
        let ev1 :=
          { ev0 with props := properties.foldl (fun ps (q : String × JsonVal) => insertProp ps q.1 q.2) ev0.props }
        let ev2 := { ev1 with props := insertProp ev1.props "platform" (JsonVal.str osConst) }
        let ev3 := { ev2 with props := insertProp ev2.props "version" (JsonVal.str cargoPkgVersion) }
        (Except.ok (), sent ++ [ev3])
    | none => (Except.ok (), sent)

/-- `Telemetry::track_error`: a no-op returning success when telemetry is
disabled; otherwise, if a Sentry guard exists, forwards the error (the
`sent` list models the errors handed to Sentry). -/
def Telemetry.track_error (t : Telemetry) (error_msg : String)
    (sent : List String) : TelemetryResult Unit × List String :=
  if !t.config.enabled then
    (Except.ok (), sent)
  else
    if t.sentry_guard.isSome then
      (Except.ok (), sent ++ [error_msg])
    else
      (Except.ok (), sent)

/-- A concrete non-interactive world: stdin is not a terminal, no CI
variables, empty file system, one pending stdin line, sequentially
numbered UUIDs. -/
def w_ni : World :=
  { dirs := []
    files := []
    stdin_tty := false
    stdout_tty := true
    env := []
    stdin_lines := [some "y"]
    uuid_gen := fun n => toString n
    uuid_ctr := 0
    now := 100
    stdout_log := [] }

/-- A concrete config path used by the concrete runs. -/
def p_ni : FsPath := ["cfg", "telemetry.json"]

/-- The record returned by the first non-interactive `TelemetryConfig.new`
run on `w_ni`. -/
def c2_first : TelemetryConfig := ⟨false, "0", 100, some p_ni⟩

/-- The record returned by the second non-interactive
`TelemetryConfig.new` run. -/
def c2_second : TelemetryConfig := ⟨false, "1", 100, some p_ni⟩

/-- C1: in a non-interactive process with no record file at the resolved
path, `TelemetryConfig::new` returns a record with `enabled = false` and a
fresh `instance_id`, reads nothing from stdin and prints nothing — but it
does NOT persist the record: the resulting file system still has no file
at the path, diverging from the claim that the record is persisted. -/
theorem c1_noninteractive_not_persisted :
    (TelemetryConfig.new "app" (some p_ni) w_ni).1 =
      Except.ok ⟨false, "0", 100, some p_ni⟩ ∧
    (TelemetryConfig.new "app" (some p_ni) w_ni).2.files = [] ∧
    (TelemetryConfig.new "app" (some p_ni) w_ni).2.stdin_lines = [some "y"] ∧
    (TelemetryConfig.new "app" (some p_ni) w_ni).2.stdout_log = [] := by
  decide

/-- C2: two sequential non-interactive `TelemetryConfig::new` calls with
the same `(app_name, path)` arguments on a world with no record file
yield records with different `instance_id`s — the first call persisted
nothing, so the second call regenerates instead of loading, diverging
from the claimed idempotent reuse. -/
theorem c2_second_call_regenerates :
    (TelemetryConfig.new "app" (some p_ni) w_ni).1 = Except.ok c2_first ∧
    (TelemetryConfig.new "app" (some p_ni)
        (TelemetryConfig.new "app" (some p_ni) w_ni).2).1 = Except.ok c2_second ∧
    c2_first.instance_id ≠ c2_second.instance_id := by
  decide

/-- C3: when the file at the resolved path exists but is malformed,
`TelemetryConfig::new` fails with a `ConfigError` and leaves the world —
file system included — completely unchanged. -/
theorem c3_malformed_is_config_error (app : String) (custom : Option FsPath)
    (w : World) (s : String)
    (h : w.fileAt (get_config_path app custom) = some (FileContent.malformed s)) :
    (∃ msg, (TelemetryConfig.new app custom w).1 =
        Except.error (TelemetryError.ConfigError msg)) ∧
    (TelemetryConfig.new app custom w).2 = w := by
  simp only [TelemetryConfig.new, h]
  exact ⟨⟨"Failed to parse config", rfl⟩, trivial⟩

/-- A world whose file system holds a malformed record at `p_ni`. -/
def w_mal : World := { w_ni with files := [(p_ni, FileContent.malformed "oops")] }

/-- Witness for C3 at a concrete world with a malformed config file. -/
theorem c3_witness :
    (∃ msg, (TelemetryConfig.new "app" (some p_ni) w_mal).1 =
        Except.error (TelemetryError.ConfigError msg)) ∧
    (TelemetryConfig.new "app" (some p_ni) w_mal).2 = w_mal :=
  c3_malformed_is_config_error "app" (some p_ni) w_mal "oops" (by decide)

/-- A record with a stored config path whose containing directory `d` is
missing from `w_ni`. -/
def r_upd : TelemetryConfig := ⟨false, "id0", 5, some ["d", "f.json"]⟩

/-- Counterexample to C4: on a world where the containing directory of
the stored path is missing (and nothing prevents creating it),
`update_consent` does not create the directory — it fails with a
`ConfigError` and the directory set is left unchanged, refuting the claim
that the missing directory is created automatically and the call
succeeds. -/
theorem c4_counterexample :
    (TelemetryConfig.update_consent r_upd true w_ni).1 =
      Except.error (TelemetryError.ConfigError "Failed to update telemetry consent") ∧
    (TelemetryConfig.update_consent r_upd true w_ni).2.2.dirs = [] := by
  decide

/-- C4 (amended): `update_consent` sets `enabled` to the flag; a record
with no stored path is updated in memory only; with a stored path the
full record is re-serialized to that path when the containing directory
exists, and when the containing directory is missing the operation fails
with a `ConfigError` leaving the world unchanged — no directory is
created automatically. -/
theorem c4_update_consent_amended (c : TelemetryConfig) (b : Bool) (w : World) :
    (TelemetryConfig.update_consent c b w).2.1.enabled = b ∧
    (c.config_path = none →
      (TelemetryConfig.update_consent c b w).1 = Except.ok () ∧
      (TelemetryConfig.update_consent c b w).2.2 = w) ∧
    (∀ p, c.config_path = some p →
      (w.dirExists p.dropLast = true →
        (TelemetryConfig.update_consent c b w).1 = Except.ok () ∧
        (TelemetryConfig.update_consent c b w).2.2.fileAt p =
          some (FileContent.record ⟨b, c.instance_id, c.created_at, c.config_path⟩)) ∧
      (w.dirExists p.dropLast = false →
        (TelemetryConfig.update_consent c b w).1 =
          Except.error (TelemetryError.ConfigError "Failed to update telemetry consent") ∧
        (TelemetryConfig.update_consent c b w).2.2 = w)) := by
  obtain ⟨e, iid, ca, cp⟩ := c
  cases cp with
  | none =>
      simp [TelemetryConfig.update_consent]
  | some p =>
      refine ⟨?_, ?_, ?_⟩
      · simp only [TelemetryConfig.update_consent, World.fileCreate]
        split <;> rfl
      · intro hn; cases hn
      · intro q hq
        cases hq
        constructor
        · intro hd
          simp [TelemetryConfig.update_consent, World.fileCreate, hd,
                World.fileAt, World.setFile, List.lookup]
        · intro hd
          simp [TelemetryConfig.update_consent, World.fileCreate, hd]

/-- A world where the containing directory `d` exists. -/
def w_dir : World := { w_ni with dirs := [["d"]] }

/-- Witness for C4 (amended) at a concrete record and world: the write
succeeds and the full updated record lands at the stored path. -/
theorem c4_witness :
    (TelemetryConfig.update_consent r_upd true w_dir).1 = Except.ok () ∧
    (TelemetryConfig.update_consent r_upd true w_dir).2.2.fileAt ["d", "f.json"] =
      some (FileContent.record ⟨true, "id0", 5, some ["d", "f.json"]⟩) :=
  ((c4_update_consent_amended r_upd true w_dir).2.2 ["d", "f.json"] rfl).1 (by decide)

/-- C5: a call to `update_consent` changes only the `enabled` field: the
in-memory record keeps its `instance_id`, `created_at` and `config_path`,
and on a successful persisting call the file at the stored path holds the
record with those same unchanged fields. -/
theorem c5_update_consent_frame (c : TelemetryConfig) (b : Bool) (w : World) :
    (TelemetryConfig.update_consent c b w).2.1.instance_id = c.instance_id ∧
    (TelemetryConfig.update_consent c b w).2.1.created_at = c.created_at ∧
    (TelemetryConfig.update_consent c b w).2.1.config_path = c.config_path ∧
    (∀ p, c.config_path = some p →
      (TelemetryConfig.update_consent c b w).1 = Except.ok () →
      (TelemetryConfig.update_consent c b w).2.2.fileAt p =
        some (FileContent.record ⟨b, c.instance_id, c.created_at, some p⟩)) := by
  obtain ⟨e, iid, ca, cp⟩ := c
  cases cp with
  | none =>
      refine ⟨rfl, rfl, rfl, ?_⟩
      intro p hp; cases hp
  | some q =>
      refine ⟨?_, ?_, ?_, ?_⟩
      · simp only [TelemetryConfig.update_consent, World.fileCreate]
        split <;> rfl
      · simp only [TelemetryConfig.update_consent, World.fileCreate]
        split <;> rfl
      · simp only [TelemetryConfig.update_consent, World.fileCreate]
        split <;> rfl
      · intro p hp hok
        cases hp
        cases hd : w.dirExists q.dropLast
        · exfalso
          simp [TelemetryConfig.update_consent, World.fileCreate, hd] at hok
        · simp [TelemetryConfig.update_consent, World.fileCreate, hd,
                World.fileAt, World.setFile, List.lookup]

/-- Witness for C5 at a concrete record and world: all three identity
fields survive a successful persisting `update_consent` call, in memory
and in the written file. -/
theorem c5_witness :
    (TelemetryConfig.update_consent r_upd true w_dir).2.1.instance_id = "id0" ∧
    (TelemetryConfig.update_consent r_upd true w_dir).2.1.created_at = 5 ∧
    (TelemetryConfig.update_consent r_upd true w_dir).2.1.config_path = some ["d", "f.json"] ∧
    (TelemetryConfig.update_consent r_upd true w_dir).2.2.fileAt ["d", "f.json"] =
      some (FileContent.record ⟨true, "id0", 5, some ["d", "f.json"]⟩) :=
  ⟨(c5_update_consent_frame r_upd true w_dir).1,
   (c5_update_consent_frame r_upd true w_dir).2.1,
   (c5_update_consent_frame r_upd true w_dir).2.2.1,
   (c5_update_consent_frame r_upd true w_dir).2.2.2 ["d", "f.json"] rfl (by decide)⟩

/-- A world whose environment holds exactly one variable. -/
def envWorld (k v : String) : World :=
  { dirs := []
    files := []
    stdin_tty := false
    stdout_tty := true
    env := [(k, v)]
    stdin_lines := []
    uuid_gen := fun n => toString n
    uuid_ctr := 0
    now := 0
    stdout_log := [] }

/-- A whitespace-only string never starts with a non-whitespace pattern
character. -/
theorem wsOnly_no_lead (v : String) (c0 : Char) (rest : List Char)
    (h : wsOnly v = true) (hc0 : isWsChar c0 = false) :
    leadsWith v.data (c0 :: rest) = false := by
  cases hd : v.data with
  | nil => rfl
  | cons c t =>
      have hc : isWsChar c = true := by
        rw [wsOnly, hd] at h
        simp [List.all_cons, Bool.and_eq_true] at h
        exact h.1
      have hne : (c == c0) = false := by
        cases hb : c == c0
        · rfl
        · exfalso
          have hcc : c = c0 := eq_of_beq hb
          rw [hcc] at hc
          rw [hc] at hc0
          cases hc0
      simp [leadsWith, hne]

/-- A whitespace-only string does not start with `phc_`. -/
theorem wsOnly_not_phc (v : String) (h : wsOnly v = true) :
    strStarts v "phc_" = false :=
  wsOnly_no_lead v 'p' "hc_".data h (by decide)

/-- A whitespace-only string does not start with `http`. -/
theorem wsOnly_not_http (v : String) (h : wsOnly v = true) :
    strStarts v "http" = false :=
  wsOnly_no_lead v 'h' "ttp".data h (by decide)

/-- C6: the credential validators behave exactly as claimed: a
whitespace-only (or empty) environment value is treated as absent without
error for both readers; a non-whitespace PostHog key is accepted
unchanged iff it starts with `phc_`, otherwise rejected with a
`ConfigError`; a non-whitespace Sentry DSN is accepted unchanged iff it
starts with `http` and contains `@sentry.io`, otherwise rejected with a
`ConfigError`. -/
theorem c6_key_validation :
    (∀ v : String, wsOnly v = true →
      get_posthog_key (envWorld "ANVIL_POSTHOG_KEY" v) = Except.ok none ∧
      get_sentry_dsn (envWorld "ANVIL_SENTRY_DSN" v) = Except.ok none) ∧
    (∀ v : String, wsOnly v = false →
      (strStarts v "phc_" = true →
        get_posthog_key (envWorld "ANVIL_POSTHOG_KEY" v) = Except.ok (some v)) ∧
      (strStarts v "phc_" = false →
        get_posthog_key (envWorld "ANVIL_POSTHOG_KEY" v) =
          Except.error (TelemetryError.ConfigError "Invalid PostHog key format")) ∧
      (strStarts v "http" = true → strContains v "@sentry.io" = true →
        get_sentry_dsn (envWorld "ANVIL_SENTRY_DSN" v) = Except.ok (some v)) ∧
      (strStarts v "http" = false ∨ strContains v "@sentry.io" = false →
        get_sentry_dsn (envWorld "ANVIL_SENTRY_DSN" v) =
          Except.error (TelemetryError.ConfigError "Invalid Sentry DSN format"))) := by
  constructor
  · intro v hw
    constructor <;>
      simp [get_posthog_key, get_sentry_dsn, envWorld, World.envVar, List.lookup, hw]
  · intro v hw
    refine ⟨?_, ?_, ?_, ?_⟩
    · intro h1
      simp [get_posthog_key, envWorld, World.envVar, List.lookup, hw, h1]
    · intro h1
      simp [get_posthog_key, envWorld, World.envVar, List.lookup, hw, h1]
    · intro h2 h3
      simp [get_sentry_dsn, envWorld, World.envVar, List.lookup, hw, h2, h3]
    · rintro (h2 | h2) <;>
        simp [get_sentry_dsn, envWorld, World.envVar, List.lookup, hw, h2]

/-- Witness for C6 at the example values named by the claim. -/
theorem c6_witness :
    get_posthog_key (envWorld "ANVIL_POSTHOG_KEY" "phc_abc123") =
      Except.ok (some "phc_abc123") ∧
    get_posthog_key (envWorld "ANVIL_POSTHOG_KEY" "abc123") =
      Except.error (TelemetryError.ConfigError "Invalid PostHog key format") ∧
    get_sentry_dsn (envWorld "ANVIL_SENTRY_DSN" "https://x@sentry.io/1") =
      Except.ok (some "https://x@sentry.io/1") ∧
    get_sentry_dsn (envWorld "ANVIL_SENTRY_DSN" "ftp://x") =
      Except.error (TelemetryError.ConfigError "Invalid Sentry DSN format") ∧
    get_sentry_dsn (envWorld "ANVIL_SENTRY_DSN" "https://x@other.io/1") =
      Except.error (TelemetryError.ConfigError "Invalid Sentry DSN format") ∧
    get_posthog_key (envWorld "ANVIL_POSTHOG_KEY" " ") = Except.ok none :=
  ⟨(c6_key_validation.2 "phc_abc123" (by decide)).1 (by decide),
   (c6_key_validation.2 "abc123" (by decide)).2.1 (by decide),
   (c6_key_validation.2 "https://x@sentry.io/1" (by decide)).2.2.1 (by decide) (by decide),
   (c6_key_validation.2 "ftp://x" (by decide)).2.2.2 (Or.inl (by decide)),
   (c6_key_validation.2 "https://x@other.io/1" (by decide)).2.2.2 (Or.inr (by decide)),
   (c6_key_validation.1 " " (by decide)).1⟩

/-- Counterexample to C7: the two construction paths do not agree on
empty or whitespace-only values.  The environment readers treat the empty
PostHog value and the blank Sentry value as absent (`none`, no error),
while `with_keys` rejects both with a `ConfigError`. -/
theorem c7_counterexample :
    get_posthog_key (envWorld "ANVIL_POSTHOG_KEY" "") = Except.ok none ∧
    TelemetryKeys.with_keys (some "") none =
      Except.error (TelemetryError.ConfigError "Invalid PostHog key format") ∧
    get_sentry_dsn (envWorld "ANVIL_SENTRY_DSN" " ") = Except.ok none ∧
    TelemetryKeys.with_keys none (some " ") =
      Except.error (TelemetryError.ConfigError "Invalid Sentry DSN format") := by
  decide

/-- C7 (amended): `with_keys` applies the same two format validations as
the environment readers to every supplied value, so on values that are
not empty/whitespace-only the two paths agree exactly (same acceptance,
same rejection); but `with_keys` does not treat empty/whitespace-only
supplied values as absent — it rejects them with a `ConfigError` where
the environment path yields `none`. -/
theorem c7_with_keys_amended (v : String) :
    (wsOnly v = false →
      ((get_posthog_key (envWorld "ANVIL_POSTHOG_KEY" v) = Except.ok (some v)) ↔
        (TelemetryKeys.with_keys (some v) none = Except.ok ⟨some v, none⟩)) ∧
      ((∃ m, get_posthog_key (envWorld "ANVIL_POSTHOG_KEY" v) =
          Except.error (TelemetryError.ConfigError m)) ↔
        (∃ m, TelemetryKeys.with_keys (some v) none =
          Except.error (TelemetryError.ConfigError m))) ∧
      ((get_sentry_dsn (envWorld "ANVIL_SENTRY_DSN" v) = Except.ok (some v)) ↔
        (TelemetryKeys.with_keys none (some v) = Except.ok ⟨none, some v⟩)) ∧
      ((∃ m, get_sentry_dsn (envWorld "ANVIL_SENTRY_DSN" v) =
          Except.error (TelemetryError.ConfigError m)) ↔
        (∃ m, TelemetryKeys.with_keys none (some v) =
          Except.error (TelemetryError.ConfigError m)))) ∧
    (wsOnly v = true →
      get_posthog_key (envWorld "ANVIL_POSTHOG_KEY" v) = Except.ok none ∧
      (∃ m, TelemetryKeys.with_keys (some v) none =
        Except.error (TelemetryError.ConfigError m)) ∧
      get_sentry_dsn (envWorld "ANVIL_SENTRY_DSN" v) = Except.ok none ∧
      (∃ m, TelemetryKeys.with_keys none (some v) =
        Except.error (TelemetryError.ConfigError m))) := by
  constructor
  · intro hw
    cases h1 : strStarts v "phc_" <;>
      cases h2 : strStarts v "http" <;>
        cases h3 : strContains v "@sentry.io" <;>
          simp [get_posthog_key, get_sentry_dsn, TelemetryKeys.with_keys, envWorld,
                World.envVar, List.lookup, hw, h1, h2, h3]
  · intro hw
    have hp : strStarts v "phc_" = false := wsOnly_not_phc v hw
    have hh : strStarts v "http" = false := wsOnly_not_http v hw
    simp [get_posthog_key, get_sentry_dsn, TelemetryKeys.with_keys, envWorld,
          World.envVar, List.lookup, hw, hp, hh]

/-- Witness for C7 (amended): on the non-whitespace value `phc_a` the two
paths agree (both accept), and on the whitespace value a supplied key is
rejected where the environment path yields absent. -/
theorem c7_witness :
    TelemetryKeys.with_keys (some "phc_a") none = Except.ok ⟨some "phc_a", none⟩ ∧
    (∃ m, TelemetryKeys.with_keys (some " ") none =
      Except.error (TelemetryError.ConfigError m)) :=
  ⟨(((c7_with_keys_amended "phc_a").1 (by decide)).1).mp (by decide),
   ((c7_with_keys_amended " ").2 (by decide)).2.1⟩

/-- C8: a `Telemetry` facade built from a record with `enabled = false`
has no PostHog client and no Sentry guard (the facade value is literally
`⟨cfg, none, none⟩`), and every `track_event` and `track_error` call on
it returns success and forwards nothing. -/
theorem c8_disabled_noop (app : String) (pk sd : Option String)
    (cp : Option FsPath) (w : World) (cfg : TelemetryConfig)
    (hcfg : (TelemetryConfig.new app cp w).1 = Except.ok cfg)
    (hdis : cfg.enabled = false) :
    (Telemetry.new app pk sd cp w).1 = Except.ok ⟨cfg, none, none⟩ ∧
    (∀ (event_name : String) (props : List (String × JsonVal))
        (sent : List PosthogEvent),
      Telemetry.track_event ⟨cfg, none, none⟩ event_name props sent =
        (Except.ok (), sent)) ∧
    (∀ (msg : String) (sent : List String),
      Telemetry.track_error ⟨cfg, none, none⟩ msg sent = (Except.ok (), sent)) := by
  refine ⟨?_, ?_, ?_⟩
  · cases hres : TelemetryConfig.new app cp w with
    | mk r w1 =>
        cases r with
        | error e =>
            rw [hres] at hcfg
            cases hcfg
        | ok config =>
            rw [hres] at hcfg
            injection hcfg with hc
            subst hc
            simp [Telemetry.new, hres, hdis]
  · intro event_name props sent
    simp [Telemetry.track_event, hdis]
  · intro msg sent
    simp [Telemetry.track_error, hdis]

/-- Witness for C8: the concrete non-interactive world yields a disabled
record; the facade carries no clients and both tracking calls are no-ops
returning success. -/
theorem c8_witness :
    (Telemetry.new "app" (some "phc_k") (some "https://x@sentry.io/1")
        (some p_ni) w_ni).1 = Except.ok ⟨c2_first, none, none⟩ ∧
    Telemetry.track_event ⟨c2_first, none, none⟩ "ev"
        [("a", JsonVal.num 1)] [] = (Except.ok (), []) ∧
    Telemetry.track_error ⟨c2_first, none, none⟩ "boom" [] = (Except.ok (), []) :=
  ⟨(c8_disabled_noop "app" (some "phc_k") (some "https://x@sentry.io/1")
      (some p_ni) w_ni c2_first (by decide) (by decide)).1,
   (c8_disabled_noop "app" (some "phc_k") (some "https://x@sentry.io/1")
      (some p_ni) w_ni c2_first (by decide) (by decide)).2.1 "ev"
      [("a", JsonVal.num 1)] [],
   (c8_disabled_noop "app" (some "phc_k") (some "https://x@sentry.io/1")
      (some p_ni) w_ni c2_first (by decide) (by decide)).2.2 "boom" []⟩

/-- `Char.toLower` maps a character to `y` exactly when it is `y` or `Y`. -/
theorem toLower_eq_y (c : Char) : Char.toLower c = 'y' ↔ (c = 'y' ∨ c = 'Y') := by
  simp only [Char.toLower]
  split
  · rename_i h
    constructor
    · intro he
      have hval : (Char.ofNat (c.toNat + 32)).toNat = c.toNat + 32 := by
        rw [Char.ofNat, dif_pos]
        · rfl
        · exact Or.inl (by omega)
      rw [he] at hval
      have hy : Char.toNat 'y' = 121 := rfl
      rw [hy] at hval
      have h89 : c.toNat = 89 := by omega
      right
      have h2 := congrArg Char.ofNat h89
      rw [Char.ofNat_toNat] at h2
      exact h2.trans (by decide)
    · rintro (rfl | rfl)
      · exact absurd h (by decide)
      · decide
  · rename_i h
    constructor
    · intro he
      left
      exact he
    · rintro (rfl | rfl)
      · rfl
      · exact absurd (by decide) h

/-- An interactive world (stdin and stdout are terminals, no CI
variables) whose pending stdin line is `" y"`: a space followed by `y`. -/
def w_spacey : World := { w_ni with stdin_tty := true, stdin_lines := [some " y"] }

/-- Counterexample to C9: the input line `" y"` does not begin with `y`
or `Y` (it begins with a space), yet the prompt treats it as affirmative
— and the interactive first run on that input produces a persisted record
with `enabled = true` — because the code trims whitespace before testing
the first character.  This refutes the claim that exactly the inputs
beginning with `y`/`Y` are affirmative and everything else is negative. -/
theorem c9_counterexample :
    strStarts " y" "y" = false ∧
    strStarts " y" "Y" = false ∧
    (prompt_yes_no w_spacey "Would you like to enable telemetry?").1 = true ∧
    (TelemetryConfig.new "app" (some p_ni) w_spacey).1 =
      Except.ok ⟨true, "0", 100, some p_ni⟩ := by
  decide

/-- C9 (amended): the prompt answer is affirmative exactly when a line is
successfully read from stdin and its whitespace-trimmed content begins
with `y` or `Y`; every other case — a line whose trimmed content begins
with any other character, a whitespace-only or empty line, or a failed
read — is negative. -/
theorem c9_prompt_amended (w : World) (msg : String) :
    (prompt_yes_no w msg).1 = true ↔
      ∃ line rest, w.stdin_lines = some line :: rest ∧
        ∃ c t, trimChars line.data = c :: t ∧ (c = 'y' ∨ c = 'Y') := by
  cases hsl : w.stdin_lines with
  | nil =>
      simp [prompt_yes_no, World.readLine, hsl]
  | cons l rest =>
      cases l with
      | none =>
          simp [prompt_yes_no, World.readLine, hsl]
      | some line =>
          cases htr : trimChars line.data with
          | nil =>
              simp [prompt_yes_no, World.readLine, hsl, htr]
          | cons c t =>
              simp [prompt_yes_no, World.readLine, hsl, htr]
              exact toLower_eq_y c

/-- `insert_prop` stores the inserted value at the inserted key. -/
theorem lookup_insertProp_self (ps : List (String × JsonVal)) (k : String) (v : JsonVal) :
    (insertProp ps k v).lookup k = some v := by
  induction ps with
  | nil => simp [insertProp, List.lookup]
  | cons a t ih =>
      by_cases hak : a.1 = k
      · have h1 : (a.1 != k) = false := by simp [hak]
        simpa [insertProp, List.filter_cons, h1] using ih
      · have h1 : (a.1 != k) = true := by simp [hak]
        have h2 : (k == a.1) = false := by
          simp only [beq_eq_false_iff_ne, ne_eq]
          exact fun hc => hak hc.symm
        simpa [insertProp, List.filter_cons, h1, List.lookup, h2] using ih

/-- `insert_prop` leaves every other key unchanged. -/
theorem lookup_insertProp_ne (ps : List (String × JsonVal)) (k : String) (v : JsonVal)
    (k' : String) (h : k' ≠ k) :
    (insertProp ps k v).lookup k' = ps.lookup k' := by
  induction ps with
  | nil =>
      have h2 : (k' == k) = false := by simp [beq_eq_false_iff_ne, h]
      simp [insertProp, List.lookup, h2]
  | cons a t ih =>
      by_cases hak : a.1 = k
      · have h1 : (a.1 != k) = false := by simp [hak]
        have h2 : (k' == a.1) = false := by
          rw [hak]
          simp [beq_eq_false_iff_ne, h]
        simp [insertProp, List.filter_cons, h1, List.lookup, h2] at ih ⊢
        exact ih
      · have h1 : (a.1 != k) = true := by simp [hak]
        by_cases hk' : k' = a.1
        · simp [insertProp, List.filter_cons, h1, List.lookup, hk']
        · have h3 : (k' == a.1) = false := by simp [beq_eq_false_iff_ne, hk']
          simp [insertProp, List.filter_cons, h1, List.lookup, h3] at ih ⊢
          exact ih

/-- C10: `track_event` inserts the fixed `platform` and `version`
properties after all caller-supplied properties, so whenever the
caller-supplied map contains a `platform` or `version` key, the event
forwarded to the analytics client carries the fixed platform/version
values at those keys (the caller-supplied values are overwritten). -/
theorem c10_fixed_props_override (t : Telemetry) (event_name : String)
    (props : List (String × JsonVal)) (sent : List PosthogEvent) (pk : String)
    (hen : t.config.enabled = true) (hpk : t.posthog = some pk)
    (hhas : (∃ v, ("platform", v) ∈ props) ∨ (∃ v, ("version", v) ∈ props)) :
    ∃ ev : PosthogEvent,
      t.track_event event_name props sent = (Except.ok (), sent ++ [ev]) ∧
      ev.props.lookup "platform" = some (JsonVal.str osConst) ∧
      ev.props.lookup "version" = some (JsonVal.str cargoPkgVersion) ∧
      ev.name = event_name ∧ ev.distinct_id = t.config.instance_id := by
  refine ⟨⟨event_name, t.config.instance_id,
    insertProp (insertProp
      (props.foldl (fun ps (q : String × JsonVal) => insertProp ps q.1 q.2) [])
      "platform" (JsonVal.str osConst)) "version" (JsonVal.str cargoPkgVersion)⟩,
    ?_, ?_, ?_, rfl, rfl⟩
  · simp [Telemetry.track_event, hen, hpk]
  · rw [lookup_insertProp_ne _ _ _ _ (by decide)]
    exact lookup_insertProp_self _ _ _
  · exact lookup_insertProp_self _ _ _

/-- Witness for C10: a concrete enabled facade and a caller property map
that itself binds `platform`; the forwarded event carries the fixed
platform and version values. -/
theorem c10_witness :
    ∃ ev : PosthogEvent,
      Telemetry.track_event ⟨⟨true, "iid", 0, none⟩, some "phc_k", none⟩ "ev"
          [("platform", JsonVal.str "mac")] [] = (Except.ok (), [] ++ [ev]) ∧
      ev.props.lookup "platform" = some (JsonVal.str osConst) ∧
      ev.props.lookup "version" = some (JsonVal.str cargoPkgVersion) ∧
      ev.name = "ev" ∧ ev.distinct_id = "iid" :=
  c10_fixed_props_override ⟨⟨true, "iid", 0, none⟩, some "phc_k", none⟩ "ev"
    [("platform", JsonVal.str "mac")] [] "phc_k" rfl rfl
    (Or.inl ⟨JsonVal.str "mac", by decide⟩)
